import Mathlib

/-
Shallow embedding of the OpenTracing-to-OpenTelemetry span shim
(opentracing-shim/src/span_shim.cc and
opentracing-shim/include/opentelemetry/opentracingshim/span_context_shim.h).

Timestamps from both clock domains are modelled as nanosecond counts (Nat);
the chrono unit conversion performed by the C++ brace initialisation
preserves the instant, so it is the identity on these counts.
-/

namespace opentracingshim

/-- Timestamps of the legacy system clock, as nanosecond counts.
`SystemTime.min` below models `opentracing::SystemTime::min()`. -/
abbrev SystemTime := Nat

/-- Model of `opentracing::SystemTime::min()`, the sentinel the no-timestamp
`Log` overload passes to `logImpl`. -/
def SystemTime.min : SystemTime := 0

/-- Timestamps of the legacy steady clock, as nanosecond counts; the
default-constructed `SteadyTime()` (value 0) is the conventional
"no explicit finish timestamp" value of `opentracing::FinishSpanOptions`. -/
abbrev SteadyTime := Nat

/-- Modelled from the spec: the legacy dynamically-typed tag/log value, a
closed variant over string, boolean, signed integer, floating point and
other-stringifiable shapes (`opentracing::Value`; the `shim_utils.h` header
consuming it is not under src/). -/
inductive Value where
  | str (s : String)
  | boolean (b : Bool)
  | int (i : Int)
  | float (f : Float)
  | other (repr : String)

/-- The modern API's typed attribute value (`common::AttributeValue`),
restricted to the variants produced by the shim's value coercion. -/
inductive AttributeValue where
  | str (s : String)
  | boolean (b : Bool)
  | int (i : Int)
  | float (f : Float)

/-- The modern span status code (`opentelemetry::trace::StatusCode`). -/
inductive StatusCode where
  | kUnset
  | kOk
  | kError
deriving DecidableEq

/-- Modelled from the spec: `shimutils::attributeFromValue` (shim_utils.h is
not under src/) — string→string, boolean→boolean, integer→integer,
float→float, any other case coerced to its string representation. -/
def attributeFromValue : Value → AttributeValue
  | .str s => .str s
  | .boolean b => .boolean b
  | .int i => .int i
  | .float f => .float f
  | .other r => .str r

/-- Modelled from the spec: `shimutils::stringFromValue` (shim_utils.h is not
under src/) — best-effort stringification used for literal comparisons;
unsupported shapes render to their library-defined textual form. -/
def stringFromValue : Value → String
  | .str s => s
  | .boolean b => if b then "true" else "false"
  | .int i => toString i
  | .float f => toString f
  | .other r => r

/-- The reserved legacy error tag name, `opentracing::ext::error`. -/
def extError : String := "error"

/-- Modelled from the SDK's semantic-conventions vocabulary:
`SemanticConventions::kExceptionType`. -/
def kExceptionType : String := "exception.type"

/-- Modelled from the SDK's semantic-conventions vocabulary:
`SemanticConventions::kExceptionMessage`. -/
def kExceptionMessage : String := "exception.message"

/-- Modelled from the SDK's semantic-conventions vocabulary:
`SemanticConventions::kExceptionStacktrace`. -/
def kExceptionStacktrace : String := "exception.stacktrace"

/-- One structured timed event recorded on the underlying modern span.
`timestamp = none` means the event was appended through the SDK's implicit
current-time `AddEvent` entry point; `some t` means the explicit-timestamp
entry point was used with converted timestamp `t`. -/
structure Event where
  name : String
  timestamp : Option SystemTime
  attributes : List (String × AttributeValue)

/-- The observable state of the underlying modern span handle (external
collaborator, §6 of the spec): name, typed attributes, status, appended
events, and the end timestamp once ended. -/
structure SpanData where
  name : String
  attributes : List (String × AttributeValue)
  status : StatusCode
  events : List Event
  endTime : Option SteadyTime

/-- Modelled from the spec: the SDK span's typed-attribute set operation. -/
def SpanData.SetAttribute (s : SpanData) (key : String) (value : AttributeValue) : SpanData :=
  { s with attributes := s.attributes ++ [(key, value)] }

/-- Modelled from the spec: the SDK span's status set operation. -/
def SpanData.SetStatus (s : SpanData) (code : StatusCode) : SpanData :=
  { s with status := code }

/-- Modelled from the spec: the SDK span's name update operation. -/
def SpanData.UpdateName (s : SpanData) (name : String) : SpanData :=
  { s with name := name }

/-- Modelled from the spec: the SDK span's untimed event append — the
implicit current-time `AddEvent` entry point. -/
def SpanData.AddEvent (s : SpanData) (name : String)
    (attributes : List (String × AttributeValue)) : SpanData :=
  { s with events := s.events ++ [{ name := name, timestamp := none, attributes := attributes }] }

/-- Modelled from the spec: the SDK span's timed event append — the
explicit-timestamp `AddEvent` entry point. -/
def SpanData.AddEventAt (s : SpanData) (name : String) (timestamp : SystemTime)
    (attributes : List (String × AttributeValue)) : SpanData :=
  { s with events := s.events ++ [{ name := name, timestamp := some timestamp, attributes := attributes }] }

/-- Modelled from the spec: the SDK span's end-with-optional-timestamp
operation; the default-constructed steady timestamp (0) means "no explicit
end time", making the SDK end the span at its implicit current time `now`. -/
def SpanData.End (s : SpanData) (endSteadyTime : SteadyTime) (now : SteadyTime) : SpanData :=
  { s with endTime := some (if endSteadyTime = 0 then now else endSteadyTime) }

/-- Modelled from the spec: the modern immutable baggage value, an immutable
set of key/value pairs (`opentelemetry::baggage::Baggage` is SDK code, not
under src/). -/
abbrev Baggage := List (String × String)

/-- Modelled from the spec: derive a new baggage value equal to the current
one plus/overwriting the single (key, value) entry; the old value is not
touched. -/
def Baggage.Set (b : Baggage) (key value : String) : Baggage :=
  (key, value) :: b.filter (fun p => !(p.1 == key))

/-- Modelled from the spec: point lookup in a baggage value, no-value when
the key is absent. -/
def Baggage.Get (b : Baggage) (key : String) : Option String :=
  (b.find? (fun p => p.1 == key)).map (fun p => p.2)

/-- The modern span-context snapshot: fixed-size binary trace and span
identifiers, each a list of bytes (values reduced mod 256 at rendering). -/
structure SpanContext where
  traceId : List Nat
  spanId : List Nat

/-- The SpanContextShim of span_context_shim.h: owns-by-value a modern
span-context snapshot and holds a (logically immutable) baggage value. -/
structure SpanContextShim where
  context_ : SpanContext
  baggage_ : Baggage

/-- Modelled from the spec: `SpanContextShim::newWithKeyValue` (declared in
span_context_shim.h; its body is repo code not under src/) — wraps the same
span-context snapshot with a new baggage value containing the added or
overwritten entry. -/
def SpanContextShim.newWithKeyValue (shim : SpanContextShim) (key value : String) : SpanContextShim :=
  { context_ := shim.context_, baggage_ := shim.baggage_.Set key value }

/-- Modelled from the spec: `SpanContextShim::BaggageItem` (declared in
span_context_shim.h; its body is repo code not under src/) — optional point
lookup in the held baggage. -/
def SpanContextShim.BaggageItem (shim : SpanContextShim) (key : String) : Option String :=
  shim.baggage_.Get key

/-- One lowercase hexadecimal digit character for a nibble value. -/
def hexDigit (n : Nat) : Char :=
  if n < 10 then Char.ofNat (48 + n) else Char.ofNat (87 + n)

/-- Modelled from the SDK: `ToLowerBase16` writes each byte of the identifier
as two lowercase hexadecimal digits, high nibble first. -/
def toLowerBase16 (bytes : List Nat) : List Char :=
  (bytes.map (fun b => [hexDigit (b % 256 / 16), hexDigit (b % 16)])).flatten

/-- `SpanContextShim::toHexString` (span_context_shim.h): renders a
fixed-size binary identifier into the string of its 2N base-16 characters. -/
def toHexString (idItem : List Nat) : String :=
  String.mk (toLowerBase16 idItem)

/-- Modelled from the spec: `SpanContextShim::ToTraceID` delegates the held
trace identifier to the identifier renderer (body not under src/). -/
def SpanContextShim.ToTraceID (shim : SpanContextShim) : String :=
  toHexString shim.context_.traceId

/-- Modelled from the spec: `SpanContextShim::ToSpanID` delegates the held
span identifier to the identifier renderer (body not under src/). -/
def SpanContextShim.ToSpanID (shim : SpanContextShim) : String :=
  toHexString shim.context_.spanId

/-- The SpanShim: exclusively owns one modern span handle (`span_`) and one
current SpanContextShim (`context_`, guarded in C++ by `context_lock_`;
the lock makes each baggage operation atomic, so operations are modelled as
whole-state transformers). -/
structure SpanShim where
  span_ : SpanData
  context_ : SpanContextShim

/-- `SpanShim::handleError` (span_shim.cc): classify the error tag value via
`stringFromValue` — "true" maps to Error, "false" to Ok, anything else to
Unset — and set the resulting status on the underlying span. -/
def SpanShim.handleError (st : SpanShim) (value : Value) : SpanShim :=
  let str_value := stringFromValue value
  let code :=
    if str_value = "true" then StatusCode.kError
    else if str_value = "false" then StatusCode.kOk
    else StatusCode.kUnset
  { st with span_ := st.span_.SetStatus code }

/-- `SpanShim::FinishWithOptions` (span_shim.cc): always forwards the
options' finish steady timestamp (converted between chrono domains) to the
underlying span's `End`. `now` threads the SDK's implicit current time. -/
def SpanShim.FinishWithOptions (st : SpanShim) (finish_steady_timestamp : SteadyTime)
    (now : SteadyTime) : SpanShim :=
  { st with span_ := st.span_.End finish_steady_timestamp now }

/-- `SpanShim::SetOperationName` (span_shim.cc): renames the underlying
span. -/
def SpanShim.SetOperationName (st : SpanShim) (name : String) : SpanShim :=
  { st with span_ := st.span_.UpdateName name }

/-- `SpanShim::SetTag` (span_shim.cc): the reserved error tag routes to
`handleError`; every other key sets one coerced attribute on the underlying
span. -/
def SpanShim.SetTag (st : SpanShim) (key : String) (value : Value) : SpanShim :=
  if key = extError then st.handleError value
  else { st with span_ := st.span_.SetAttribute key (attributeFromValue value) }

/-- `SpanShim::SetBaggageItem` (span_shim.cc): under the context lock,
replace the current SpanContextShim with a derivation holding the new
key/value entry. -/
def SpanShim.SetBaggageItem (st : SpanShim) (restricted_key value : String) : SpanShim :=
  { st with context_ := st.context_.newWithKeyValue restricted_key value }

/-- `SpanShim::BaggageItem` (span_shim.cc): under the context lock, look the
key up in the current SpanContextShim's baggage; empty string when absent. -/
def SpanShim.BaggageItem (st : SpanShim) (restricted_key : String) : String :=
  match st.context_.BaggageItem restricted_key with
  | some value => value
  | none => ""

/-- The event name chosen by `SpanShim::logImpl` (span_shim.cc): the coerced
string value of the first field keyed "event", else the literal "log". -/
def logImplName (fields : List (String × Value)) : String :=
  match fields.find? (fun item => item.1 == "event") with
  | some e => stringFromValue e.2
  | none => "log"

/-- `SpanShim::logImpl` (span_shim.cc): pick the event name, classify the
error case, rename it to "exception" there, convert every field (rewriting
the three reserved keys in the error case), and append the event through the
explicit-timestamp entry point exactly when the timestamp differs from the
`SystemTime.min` sentinel. -/
def SpanShim.logImpl (st : SpanShim) (timestamp : SystemTime)
    (fields : List (String × Value)) : SpanShim :=
  let name := logImplName fields
  let is_error : Bool := name == extError
  let name := if is_error then "exception" else name
  let attributes := fields.map (fun entry =>
    let key := entry.1
    let value := attributeFromValue entry.2
    let key :=
      if is_error then
        if key = "error.kind" then kExceptionType
        else if key = "message" then kExceptionMessage
        else if key = "stack" then kExceptionStacktrace
        else key
      else key
    (key, value))
  if timestamp ≠ SystemTime.min then
    { st with span_ := st.span_.AddEventAt name timestamp attributes }
  else
    { st with span_ := st.span_.AddEvent name attributes }

/-- `SpanShim::Log(fields)` (span_shim.cc): the no-timestamp overload passes
the `SystemTime::min()` sentinel meaning "use current time". -/
def SpanShim.Log (st : SpanShim) (fields : List (String × Value)) : SpanShim :=
  st.logImpl SystemTime.min fields

/-- `SpanShim::Log(timestamp, fields)` (span_shim.cc): the explicit-timestamp
overload forwards its timestamp to `logImpl`. -/
def SpanShim.LogAt (st : SpanShim) (timestamp : SystemTime)
    (fields : List (String × Value)) : SpanShim :=
  st.logImpl timestamp fields

/-- A fresh span state used by concrete witnesses. -/
def spanData0 : SpanData :=
  { name := "op", attributes := [], status := StatusCode.kUnset, events := [], endTime := none }

/-- A concrete span-context snapshot used by concrete witnesses. -/
def spanContext0 : SpanContext :=
  { traceId := [0, 255], spanId := [171] }

/-- A concrete SpanContextShim used by concrete witnesses. -/
def contextShim0 : SpanContextShim :=
  { context_ := spanContext0, baggage_ := [("x", "1")] }

/-- A concrete SpanShim used by concrete witnesses. -/
def spanShim0 : SpanShim :=
  { span_ := spanData0, context_ := contextShim0 }

/-- A second SpanContextShim holding the same trace identifier as
`contextShim0` but different baggage, used to witness determinism of the
identifier rendering. -/
def contextShimB : SpanContextShim :=
  { context_ := spanContext0, baggage_ := [] }

/-- The exception-shaped log field list from the spec's testable
property 4. -/
def errorFields : List (String × Value) :=
  [("event", Value.str "error"), ("error.kind", Value.str "Timeout"),
   ("message", Value.str "boom"), ("stack", Value.str "at foo")]

/-- A field list holding two entries keyed "event", the second coercing to
"error": the designated event name is taken from the first. -/
def dupEventFields : List (String × Value) :=
  [("event", Value.str "x"), ("event", Value.str "error")]

/-- The plain log field list from the spec's testable property 5. -/
def fooFields : List (String × Value) :=
  [("foo", Value.str "bar")]

/-- A field list whose single entry names the event "error". -/
def eventErrorFields : List (String × Value) :=
  [("event", Value.str "error")]

/-- Characters that are lowercase hexadecimal digits. -/
def isLowerHexDigit (c : Char) : Bool :=
  (('0' ≤ c) && (c ≤ '9')) || (('a' ≤ c) && (c ≤ 'f'))

/-- Claim C2: for every `SetTag("error", value)` call, the underlying span's
status is set according to the string coercion of the value — the literal
string "true" yields status Error, the literal string "false" yields status
Ok, and any other value yields status Unset. -/
theorem setTag_error_status (value : Value) (st : SpanShim) :
    (st.SetTag "error" value).span_.status =
      (if stringFromValue value = "true" then StatusCode.kError
       else if stringFromValue value = "false" then StatusCode.kOk
       else StatusCode.kUnset) := by
  simp [SpanShim.SetTag, SpanShim.handleError, SpanData.SetStatus, extError]

/-- Claim C10: `SetTag` with the reserved key "error" (matched exactly and
case-sensitively) performs only the single status update — it creates no
attribute, no event, and touches neither name, end time nor context — while
`SetTag` with any other key appends exactly one coerced attribute and leaves
the status (and everything else) untouched. -/
theorem setTag_frame (key : String) (value : Value) (st : SpanShim) :
    (st.SetTag key value).span_.name = st.span_.name
    ∧ (st.SetTag key value).span_.events = st.span_.events
    ∧ (st.SetTag key value).span_.endTime = st.span_.endTime
    ∧ (st.SetTag key value).context_ = st.context_
    ∧ (st.SetTag key value).span_.attributes =
        (if key = "error" then st.span_.attributes
         else st.span_.attributes ++ [(key, attributeFromValue value)])
    ∧ (st.SetTag key value).span_.status =
        (if key = "error" then (st.handleError value).span_.status else st.span_.status) := by
  by_cases h : key = "error" <;>
    simp [SpanShim.SetTag, SpanShim.handleError, SpanData.SetStatus, SpanData.SetAttribute,
      extError, h]

/-- Claim C4: `FinishWithOptions` ends the span at the explicitly supplied
finish timestamp (converted between the legacy and modern clock domains)
when one is supplied, and otherwise (default-constructed steady timestamp)
the span is ended at the implicit current time chosen by the underlying
SDK. -/
theorem finishWithOptions_endTime (finish_steady_timestamp now : SteadyTime) (st : SpanShim) :
    (finish_steady_timestamp ≠ 0 →
      (st.FinishWithOptions finish_steady_timestamp now).span_.endTime =
        some finish_steady_timestamp)
    ∧ (finish_steady_timestamp = 0 →
      (st.FinishWithOptions finish_steady_timestamp now).span_.endTime = some now) := by
  constructor <;> intro h <;>
    simp [SpanShim.FinishWithOptions, SpanData.End, h]

/-- Witness for C4: finishing with the explicit steady timestamp 5 ends the
span at 5 regardless of the current time 9, and finishing with the
default-constructed timestamp 0 ends it at the implicit current time 9. -/
theorem finishWithOptions_endTime_witness :
    (spanShim0.FinishWithOptions 5 9).span_.endTime = some 5
    ∧ (spanShim0.FinishWithOptions 0 9).span_.endTime = some 9 :=
  ⟨(finishWithOptions_endTime 5 9 spanShim0).1 (by decide),
   (finishWithOptions_endTime 0 9 spanShim0).2 rfl⟩

/-- Claim C8: the span-shim-level `BaggageItem` returns the empty string for
every key absent from the current baggage, and the stored value for every
present key. -/
theorem baggageItem_absent_empty (st : SpanShim) (key : String) :
    (st.context_.BaggageItem key = none → st.BaggageItem key = "")
    ∧ (∀ v, st.context_.BaggageItem key = some v → st.BaggageItem key = v) := by
  constructor
  · intro h
    simp [SpanShim.BaggageItem, h]
  · intro v h
    simp [SpanShim.BaggageItem, h]

/-- Witness for C8: on the concrete shim whose baggage holds only the key
"x", looking up the absent key "y" yields the empty string, and looking up
"x" yields its stored value "1". -/
theorem baggageItem_absent_empty_witness :
    spanShim0.BaggageItem "y" = "" ∧ spanShim0.BaggageItem "x" = "1" :=
  ⟨(baggageItem_absent_empty spanShim0 "y").1 (by decide),
   (baggageItem_absent_empty spanShim0 "x").2 "1" (by decide)⟩

theorem find?_filter_key (b : Baggage) (k q : String) (hq : q ≠ k) :
    List.find? (fun p => p.1 == q) (List.filter (fun p => !(p.1 == k)) b)
      = List.find? (fun p => p.1 == q) b := by
  induction b with
  | nil => rfl
  | cons a tl ih =>
    have hqk : (q == k) = false := beq_eq_false_iff_ne.mpr hq
    have hkq : (k == q) = false := beq_eq_false_iff_ne.mpr (fun h => hq h.symm)
    by_cases hak : a.1 = k
    · simp [List.filter_cons, List.find?, hak, hq, hqk, hkq, ih]
    · by_cases haq : a.1 = q
      · simp [List.filter_cons, List.find?, hak, haq, hq, hqk, hkq]
      · have haqb : (a.1 == q) = false := beq_eq_false_iff_ne.mpr haq
        simp [List.filter_cons, List.find?, hak, haq, haqb, hq, hqk, hkq, ih]

/-- Claim C3: deriving a SpanContextShim through `newWithKeyValue` (also as
performed by `SetBaggageItem`) never changes any existing shim's baggage
lookups: the new shim wraps the same span-context snapshot with a new
baggage value holding the added/overwritten entry, every other key reads as
before, and the span-shim derivation only swaps the held context shim. -/
theorem newWithKeyValue_cow (shim : SpanContextShim) (k v : String) :
    (shim.newWithKeyValue k v).context_ = shim.context_
    ∧ (shim.newWithKeyValue k v).BaggageItem k = some v
    ∧ (∀ q, q ≠ k → (shim.newWithKeyValue k v).BaggageItem q = shim.BaggageItem q)
    ∧ (∀ st : SpanShim, (st.SetBaggageItem k v).context_ = st.context_.newWithKeyValue k v
        ∧ (st.SetBaggageItem k v).span_ = st.span_) := by
  refine ⟨rfl, ?_, ?_, fun st => ⟨rfl, rfl⟩⟩
  · simp [SpanContextShim.newWithKeyValue, SpanContextShim.BaggageItem, Baggage.Set,
      Baggage.Get, List.find?]
  · intro q hq
    have hk : (k == q) = false := by
      rw [beq_eq_false_iff_ne]
      intro hcontra
      exact hq hcontra.symm
    simp [SpanContextShim.newWithKeyValue, SpanContextShim.BaggageItem, Baggage.Set,
      Baggage.Get, List.find?, hk, find?_filter_key shim.baggage_ k q hq]

/-- Witness for C3: deriving with key "a" from the concrete shim leaves the
lookup of the pre-existing key "x" unchanged, records "a", and
`SetBaggageItem` on the concrete span shim swaps only the context. -/
theorem newWithKeyValue_cow_witness :
    (contextShim0.newWithKeyValue "a" "2").BaggageItem "x" = contextShim0.BaggageItem "x"
    ∧ (contextShim0.newWithKeyValue "a" "2").BaggageItem "a" = some "2"
    ∧ (spanShim0.SetBaggageItem "a" "2").context_ = spanShim0.context_.newWithKeyValue "a" "2" :=
  ⟨(newWithKeyValue_cow contextShim0 "a" "2").2.2.1 "x" (by decide),
   (newWithKeyValue_cow contextShim0 "a" "2").2.1,
   ((newWithKeyValue_cow contextShim0 "a" "2").2.2.2 spanShim0).1⟩

/-- Claim C5 counterexample: calling the explicit-timestamp `Log` overload
with the timestamp equal to the `SystemTime::min()` sentinel emits the
event through the implicit current-time entry point (no recorded explicit
timestamp), so an explicit timestamp colliding with the sentinel is not
treated as explicit. -/
theorem logAt_sentinel_counterexample :
    (spanShim0.LogAt SystemTime.min fooFields).span_.events.map Event.timestamp = [none]
    ∧ ((none : Option SystemTime) ≠ some SystemTime.min) := by
  exact ⟨rfl, by decide⟩

/-- Claim C5 (amended): the event is emitted through the explicit-timestamp
SDK entry point exactly when the supplied timestamp differs from the
sentinel minimum — the no-timestamp overload always uses the implicit
entry point, and an explicit timestamp equal to the sentinel is conflated
with the implicit form. -/
theorem logImpl_entry_points (timestamp : SystemTime) (fields : List (String × Value))
    (st : SpanShim) :
    (st.LogAt timestamp fields).span_.events.map Event.timestamp
      = st.span_.events.map Event.timestamp
        ++ [if timestamp = SystemTime.min then none else some timestamp]
    ∧ (st.Log fields).span_.events.map Event.timestamp
      = st.span_.events.map Event.timestamp ++ [none] := by
  constructor
  · by_cases h : timestamp = SystemTime.min <;>
      simp [SpanShim.LogAt, SpanShim.logImpl, SpanData.AddEvent, SpanData.AddEventAt, h]
  · simp [SpanShim.Log, SpanShim.logImpl, SpanData.AddEvent]

theorem hexDigit_isLowerHex (n : Nat) (h : n < 16) : isLowerHexDigit (hexDigit n) = true := by
  have key : ∀ m : Fin 16, isLowerHexDigit (hexDigit m.val) = true := by decide
  exact key ⟨n, h⟩

theorem toLowerBase16_length (bytes : List Nat) :
    (toLowerBase16 bytes).length = 2 * bytes.length := by
  induction bytes with
  | nil => rfl
  | cons b tl ih =>
    simp only [toLowerBase16, List.map_cons, List.flatten_cons, List.length_append,
      List.length_cons, List.length_nil] at ih ⊢
    omega

theorem toLowerBase16_isLowerHex (bytes : List Nat) :
    ∀ c ∈ toLowerBase16 bytes, isLowerHexDigit c = true := by
  induction bytes with
  | nil => intro c hc; cases hc
  | cons b tl ih =>
    intro c hc
    simp only [toLowerBase16, List.map_cons, List.flatten_cons, List.mem_append,
      List.mem_cons, List.not_mem_nil, or_false] at hc
    rcases hc with hc | hc
    · rcases hc with hc | hc
      · have hb : b % 256 / 16 < 16 := by
          have h256 : b % 256 < 256 := Nat.mod_lt _ (by norm_num)
          omega
        exact hc ▸ hexDigit_isLowerHex _ hb
      · have hb : b % 16 < 16 := Nat.mod_lt _ (by norm_num)
        exact hc ▸ hexDigit_isLowerHex _ hb
    · exact ih c hc

/-- Claim C7: for the fixed-size binary identifiers held in the span-context
snapshot, `ToTraceID` and `ToSpanID` return a lowercase hexadecimal string
of exactly twice the identifier's byte length, with no separators or prefix
(every character is a lowercase hex digit), and the rendering is
deterministic: equal identifiers always yield equal strings. -/
theorem toTraceID_toSpanID_hex (shim : SpanContextShim) :
    shim.ToTraceID.length = 2 * shim.context_.traceId.length
    ∧ shim.ToSpanID.length = 2 * shim.context_.spanId.length
    ∧ (∀ c ∈ shim.ToTraceID.data, isLowerHexDigit c = true)
    ∧ (∀ c ∈ shim.ToSpanID.data, isLowerHexDigit c = true)
    ∧ (∀ other : SpanContextShim, other.context_.traceId = shim.context_.traceId →
        other.ToTraceID = shim.ToTraceID)
    ∧ (∀ other : SpanContextShim, other.context_.spanId = shim.context_.spanId →
        other.ToSpanID = shim.ToSpanID) := by
  refine ⟨toLowerBase16_length _, toLowerBase16_length _,
    toLowerBase16_isLowerHex _, toLowerBase16_isLowerHex _, ?_, ?_⟩
  · intro other h
    simp [SpanContextShim.ToTraceID, toHexString, h]
  · intro other h
    simp [SpanContextShim.ToSpanID, toHexString, h]

/-- Witness for C7: the concrete trace id `[0, 255]` renders to a 4-character
string, the character f occurring in it is a lowercase hex digit, and a shim
holding the same trace id with different baggage renders identically. -/
theorem toTraceID_toSpanID_hex_witness :
    contextShim0.ToTraceID.length = 2 * contextShim0.context_.traceId.length
    ∧ isLowerHexDigit (Char.ofNat 102) = true
    ∧ contextShimB.ToTraceID = contextShim0.ToTraceID :=
  ⟨(toTraceID_toSpanID_hex contextShim0).1,
   (toTraceID_toSpanID_hex contextShim0).2.2.1 (Char.ofNat 102) (by decide),
   (toTraceID_toSpanID_hex contextShim0).2.2.2.2.1 contextShimB rfl⟩

/-- Claim C1 counterexample: the field sequence
`[("event","x"), ("event","error")]` contains a field keyed "event" whose
coerced string value is "error", yet the single emitted event is named "x"
(the designated name comes from the first "event" field), not "exception",
and no key is rewritten. -/
theorem log_dupEvent_counterexample :
    dupEventFields.any (fun f => f.1 == "event" && stringFromValue f.2 == "error") = true
    ∧ (spanShim0.Log dupEventFields).span_.events.map Event.name = ["x"]
    ∧ ("x" : String) ≠ "exception" :=
  ⟨rfl, rfl, by decide⟩

/-- Claim C1 (amended): for every Log call whose field sequence yields the
event name "error" — that is, its first field keyed "event" has coerced
string value "error" — exactly one event is emitted on the underlying span,
its name is "exception", every field keyed "error.kind", "message" or
"stack" appears in the event's attributes under the exception-type,
exception-message and exception-stacktrace semantic keys with its
`attributeFromValue`-converted value, and every other field appears under
its original key unchanged. -/
theorem logImpl_errorEvent (timestamp : SystemTime) (fields : List (String × Value))
    (st : SpanShim) (e : String × Value)
    (hfind : fields.find? (fun item => item.1 == "event") = some e)
    (herr : stringFromValue e.2 = "error") :
    (st.logImpl timestamp fields).span_.events
      = st.span_.events
        ++ [{ name := "exception",
              timestamp := if timestamp = SystemTime.min then none else some timestamp,
              attributes := fields.map (fun entry =>
                ((if entry.1 = "error.kind" then kExceptionType
                  else if entry.1 = "message" then kExceptionMessage
                  else if entry.1 = "stack" then kExceptionStacktrace
                  else entry.1), attributeFromValue entry.2)) }] := by
  have hname : logImplName fields = "error" := by
    simp [logImplName, hfind, herr]
  by_cases h : timestamp = SystemTime.min <;>
    simp [SpanShim.logImpl, hname, extError, SpanData.AddEvent, SpanData.AddEventAt, h]

/-- Witness for C1: the spec's exception-shaped field list emits exactly one
event named "exception" whose attributes carry the three renamed semantic
keys and the untouched "event" key. -/
theorem logImpl_errorEvent_witness :
    (spanShim0.logImpl SystemTime.min errorFields).span_.events
      = spanShim0.span_.events
        ++ [{ name := "exception",
              timestamp := if SystemTime.min = SystemTime.min then none
                           else some SystemTime.min,
              attributes := errorFields.map (fun entry =>
                ((if entry.1 = "error.kind" then kExceptionType
                  else if entry.1 = "message" then kExceptionMessage
                  else if entry.1 = "stack" then kExceptionStacktrace
                  else entry.1), attributeFromValue entry.2)) }] :=
  logImpl_errorEvent SystemTime.min errorFields spanShim0 ("event", Value.str "error") rfl rfl

/-- Claim C6 counterexample: a Log call with the single field
`("event","error")` emits an event named "exception", not the field's
coerced string value "error" as the claim requires. -/
theorem log_eventError_counterexample :
    (spanShim0.Log eventErrorFields).span_.events.map Event.name = ["exception"]
    ∧ stringFromValue (Value.str "error") = "error"
    ∧ ("exception" : String) ≠ "error" :=
  ⟨rfl, rfl, by decide⟩

/-- Claim C6 (amended): for every Log call whose designated event name is
not "error": the emitted event is named by the coerced string value of the
first field keyed "event" when one exists and by the literal "log"
otherwise, and every field appears in the event's attributes under its
original key with its converted value. -/
theorem logImpl_nonError (timestamp : SystemTime) (fields : List (String × Value))
    (st : SpanShim) (h : logImplName fields ≠ "error") :
    (st.logImpl timestamp fields).span_.events
      = st.span_.events
        ++ [{ name := logImplName fields,
              timestamp := if timestamp = SystemTime.min then none else some timestamp,
              attributes := fields.map (fun entry => (entry.1, attributeFromValue entry.2)) }]
    ∧ (fields.find? (fun item => item.1 == "event") = none → logImplName fields = "log")
    ∧ (∀ e, fields.find? (fun item => item.1 == "event") = some e →
        logImplName fields = stringFromValue e.2) := by
  refine ⟨?_, ?_, ?_⟩
  · have hb : (logImplName fields == extError) = false := by
      rw [beq_eq_false_iff_ne]
      simpa [extError] using h
    by_cases ht : timestamp = SystemTime.min <;>
      simp [SpanShim.logImpl, hb, SpanData.AddEvent, SpanData.AddEventAt, ht]
  · intro hnone
    simp [logImplName, hnone]
  · intro e he
    simp [logImplName, he]

/-- Witness for C6: the spec's plain field list `[("foo","bar")]` has no
"event" field, so the emitted event is named "log" and keeps the field
unchanged. -/
theorem logImpl_nonError_witness :
    ((spanShim0.logImpl SystemTime.min fooFields).span_.events
      = spanShim0.span_.events
        ++ [{ name := logImplName fooFields,
              timestamp := if SystemTime.min = SystemTime.min then none
                           else some SystemTime.min,
              attributes := fooFields.map (fun entry =>
                (entry.1, attributeFromValue entry.2)) }])
    ∧ logImplName fooFields = "log" :=
  ⟨(logImpl_nonError SystemTime.min fooFields spanShim0 (by decide)).1,
   (logImpl_nonError SystemTime.min fooFields spanShim0 (by decide)).2.1 rfl⟩

end opentracingshim
